import Mathlib

/-!
Shallow embedding of the EduNote AI backend (src/index.js, with the older
variant in src/unnamed/part_000) and proofs about its request handling.

The program is a single Express endpoint: it validates a lesson request via
JavaScript truthiness, formats a numbered section list, interpolates a fixed
prompt template, and calls a generative AI model through a retry wrapper
`generateWithRetry`.  The external model call is abstracted as a function
from the attempt index to a success text or a failure message; waits and
calls performed by the retry loop are recorded as an explicit event trace.
-/

namespace EduNote

/-- A JavaScript value, restricted to the shapes the request fields can
take in the claims: `undefined`, `null`, booleans, integers, strings, and
arrays of strings (the `sections` field). -/
inductive JsVal where
  | undef : JsVal
  | nullV : JsVal
  | boolV : Bool → JsVal
  | numV : Int → JsVal
  | strV : String → JsVal
  | arrV : List String → JsVal
deriving DecidableEq, Repr

/-- JavaScript truthiness: `undefined`, `null`, `false`, `0` and `""` are
falsy; every array (even empty) is truthy. -/
def truthy : JsVal → Bool
  | .undef => false
  | .nullV => false
  | .boolV b => b
  | .numV n => n != 0
  | .strV s => s != ""
  | .arrV _ => true

/-- JavaScript string conversion, as performed by template-literal
interpolation of the request fields. -/
def jsToString : JsVal → String
  | .undef => "undefined"
  | .nullV => "null"
  | .boolV b => if b then "true" else "false"
  | .numV n => toString n
  | .strV s => s
  | .arrV xs => String.intercalate "," xs

/-- Model of JavaScript `String.prototype.toLowerCase` (ASCII-accurate):
lower-case every character. -/
def jsToLower (s : String) : String :=
  ⟨s.toList.map Char.toLower⟩

/-- Model of JavaScript `String.prototype.toUpperCase` (ASCII-accurate):
upper-case every character. -/
def jsToUpper (s : String) : String :=
  ⟨s.toList.map Char.toUpper⟩

/-- Prefix test on character lists. -/
def listPrefixOf : List Char → List Char → Bool
  | [], _ => true
  | _ :: _, [] => false
  | a :: as, b :: bs => a == b && listPrefixOf as bs

/-- Infix test on character lists. -/
def listSub (needle : List Char) : List Char → Bool
  | [] => listPrefixOf needle []
  | b :: bs => listPrefixOf needle (b :: bs) || listSub needle bs

/-- Substring test: `containsSub needle hay` models JavaScript
`hay.includes(needle)`. -/
def containsSub (needle hay : String) : Bool :=
  listSub needle.toList hay.toList

/-- The whitespace class of JavaScript `String.prototype.trim` (models the
built-in; the common WhiteSpace and LineTerminator code points). -/
def isJsWs (c : Char) : Bool :=
  c == ' ' || c == '\t' || c == '\n' || c == '\r' || c == '\x0b' ||
  c == '\x0c' || c == '\u00A0' || c == '\uFEFF'

/-- Model of JavaScript `String.prototype.trim`: drop the whitespace
prefix and the whitespace suffix. -/
def jsTrim (s : String) : String :=
  ⟨((s.toList.dropWhile isJsWs).reverse.dropWhile isJsWs).reverse⟩

/-- Outcome of one call to the external generation capability
(`model.generateContent`): the generated text, or a thrown error with the
given message. -/
inductive GenResult where
  | success : String → GenResult
  | failure : String → GenResult
deriving DecidableEq, Repr

/-- Observable events of the retry loop: a backoff wait (in milliseconds)
or a call to the external capability with the given attempt index. -/
inductive Ev where
  | wait : Nat → Ev
  | call : Nat → Ev
deriving DecidableEq, Repr

/-- Final outcome of `generateWithRetry`: the (trimmed) text returned, or
the thrown error message.  `err none` models `throw lastError` when
`lastError` was never assigned (only reachable with `maxRetries = 0`). -/
inductive RetryOutcome where
  | ok : String → RetryOutcome
  | err : Option String → RetryOutcome
deriving DecidableEq, Repr

/-- Error classification of src/index.js line 40-43: lower-case the
message, retry only on "503", "500", "overloaded" or "unavailable" as a
substring. -/
def isRetryable (msg : String) : Bool :=
  let m := jsToLower msg
  containsSub "503" m || containsSub "500" m ||
    containsSub "overloaded" m || containsSub "unavailable" m

/-- The loop body of `generateWithRetry` (src/index.js lines 26-52):
iteration `i` waits `2 ^ i * 1000` ms when `i > 0`, then calls the
capability; success returns the trimmed text, a retryable failure records
the error and continues, a non-retryable failure is thrown at once; when
`i` reaches `maxRetries` the last recorded error is thrown. -/
def generateWithRetryAux (gen : Nat → GenResult) (maxRetries : Nat)
    (i : Nat) (lastError : Option String) : List Ev × RetryOutcome :=
  if i < maxRetries then
    let pre : List Ev := if i > 0 then [Ev.wait (2 ^ i * 1000)] else []
    match gen i with
    | .success t => (pre ++ [Ev.call i], .ok (jsTrim t))
    | .failure msg =>
      if isRetryable msg then
        let rest := generateWithRetryAux gen maxRetries (i + 1) (some msg)
        (pre ++ Ev.call i :: rest.1, rest.2)
      else
        (pre ++ [Ev.call i], .err (some msg))
  else
    ([], .err lastError)
termination_by maxRetries - i

/-- `generateWithRetry(model, prompt, maxRetries)` of src/index.js,
abstracting the model call as `gen`; returns the event trace together
with the outcome. -/
def generateWithRetry (gen : Nat → GenResult) (maxRetries : Nat) :
    List Ev × RetryOutcome :=
  generateWithRetryAux gen maxRetries 0 none

/-- The default of the `maxRetries` parameter (src/index.js line 23). -/
def defaultMaxRetries : Nat := 3

/-- The attempt indices of the calls in an event trace, in order. -/
def callIdxs : List Ev → List Nat
  | [] => []
  | Ev.call i :: r => i :: callIdxs r
  | Ev.wait _ :: r => callIdxs r

/-- The waits of an event trace, in order (milliseconds). -/
def waitsOf : List Ev → List Nat
  | [] => []
  | Ev.wait w :: r => w :: waitsOf r
  | Ev.call _ :: r => waitsOf r

/-- The destructured body of `POST /generateLessonDraft`
(src/index.js line 61): each field is a JavaScript value, `undef` when the
key is absent from the JSON body. -/
structure LessonRequest where
  curriculum : JsVal
  classLevel : JsVal
  subject : JsVal
  week : JsVal
  topic : JsVal
  subTopic : JsVal
  sections : JsVal
deriving DecidableEq, Repr

/-- The validation test of src/index.js line 66:
`!curriculum || !classLevel || !subject || !topic || !sections`. -/
def missingRequired (req : LessonRequest) : Bool :=
  !truthy req.curriculum || !truthy req.classLevel || !truthy req.subject ||
    !truthy req.topic || !truthy req.sections

/-- The fallback section list used when `sections` is not an array
(src/index.js line 73). -/
def defaultSectionsStr : String := "1. OBJECTIVES\n2. CONTENT\n3. EVALUATION"

/-- One rendered entry of the section list: the zero-based index paired
with the section name, rendered as in src/index.js line 72. -/
def renderSection (p : Nat × String) : String :=
  toString (p.1 + 1) ++ ". " ++ jsToUpper p.2

/-- `formattedSections` of src/index.js lines 71-73: an array is mapped to
a numbered upper-cased list joined by newlines, anything else falls back
to the fixed default list. -/
def formattedSections (sections : JsVal) : String :=
  match sections with
  | .arrV xs => String.intercalate "\n" (xs.enum.map renderSection)
  | _ => defaultSectionsStr

/-- Interpolation with a fallback, as in the template expressions
`week || "N/A"` and `subTopic || "N/A"` (src/index.js lines 83 and 85). -/
def orNA (v : JsVal) : String :=
  if truthy v then jsToString v else "N/A"

/-- Prompt template text before the `curriculum` interpolation. -/
def promptP1 : String :=
  "\n           You are a highly experienced professional teacher and curriculum expert working with the "

/-- Prompt template text between `curriculum` and `classLevel`. -/
def promptP2 : String :=
  " curriculum.\n\nGenerate a COMPREHENSIVE WEEKLY LESSON PLAN suitable for teaching this topic across MULTIPLE CLASS PERIODS in one week.\n\nTeaching Context:\n- Class Level: "

/-- Prompt template text between `classLevel` and `subject`. -/
def promptP3 : String := "\n- Subject: "

/-- Prompt template text between `subject` and the `week` fallback. -/
def promptP4 : String := "\n- Week: "

/-- Prompt template text between `week` and `topic`. -/
def promptP5 : String := "\n- Topic: "

/-- Prompt template text between `topic` and the `subTopic` fallback. -/
def promptP6 : String := "\n- Sub-topic(s): "

/-- Prompt template text between `subTopic` and `formattedSections`. -/
def promptP7 : String :=
  "\n- Number of lessons this week: 3 (three separate class periods)\n\nIMPORTANT INSTRUCTIONS:\n1. This lesson plan must be detailed enough for a teacher to teach the topic across THREE DIFFERENT CLASSES in the same week.\n2. Each lesson period must be clearly separated as:\n   - Lesson 1\n   - Lesson 2\n   - Lesson 3\n3. Each lesson should build progressively on the previous one.\n4. Write in clear, simple, professional language suitable for official school lesson notes.\n5. Avoid unnecessary storytelling. Be practical and classroom-focused.\n\nSTRICTLY USE ONLY THE FOLLOWING SECTIONS AND MAINTAIN THIS ORDER:\n"

/-- Prompt template text after `formattedSections`. -/
def promptP8 : String :=
  "\n\nCONTENT EXPECTATIONS:\n- OBJECTIVES must be measurable and appropriate for the class level.\n- CONTENT must be broken down per lesson period (Lesson 1, Lesson 2, Lesson 3).\n- Each lesson period should include:\n  • Brief introduction\n  • Main teaching points\n  • Teacher activities\n  • Learner activities\n  • Teaching/learning materials\n  • Evaluation questions\n- EVALUATION should include both oral and written assessment suitable for the end of the week.\n- ASSIGNMENT (if included) should reinforce learning across the week.\n\nFORMAT RULES:\n- Use clear headings and sub-headings.\n- Use bullet points where appropriate.\n- Keep symbols and notations clear (e.g., ¬, ∧, ∨ for logic when applicable).\n- Do NOT include any section outside the provided list.\n\nThe final output should be a FULL WEEKLY LESSON NOTE that a teacher can directly use without modification.\n        "

/-- The template literal of src/index.js lines 75-121, with the request
fields and the rendered section list interpolated. -/
def buildPrompt (req : LessonRequest) (fs : String) : String :=
  promptP1 ++ jsToString req.curriculum ++ promptP2 ++
    jsToString req.classLevel ++ promptP3 ++ jsToString req.subject ++
    promptP4 ++ orNA req.week ++ promptP5 ++ jsToString req.topic ++
    promptP6 ++ orNA req.subTopic ++ promptP7 ++ fs ++ promptP8

/-- A response sent by the handler: the error body of line 67, the
error-with-details body of lines 136-141, or the draft body of line 130. -/
inductive RespBody where
  | errB : String → RespBody
  | errD : String → String → RespBody
  | draftB : String → RespBody
deriving DecidableEq, Repr

/-- Result of one run of the `POST /generateLessonDraft` handler: the
events of the retry loop (empty when the external capability was never
invoked), the HTTP status, and the JSON body. -/
structure HandlerOut where
  events : List Ev
  status : Nat
  body : RespBody
deriving DecidableEq, Repr

/-- The friendly message of src/index.js line 139. -/
def overloadedFriendly : String :=
  "The AI is currently overloaded. Please try again in a few moments."

/-- The `POST /generateLessonDraft` handler of src/index.js lines 59-143.
The external capability is abstracted as `gen prompt attemptIdx`.  When
the retry loop throws, the catch block answers 500 with details chosen by
an `includes("overloaded")` test on the message.  `Option.getD` reads the
thrown message; the `none` case is unreachable here because
`defaultMaxRetries = 3` guarantees at least one attempt. -/
def handler (gen : String → Nat → GenResult) (req : LessonRequest) :
    HandlerOut :=
  if missingRequired req then
    ⟨[], 400, .errB "Missing required fields"⟩
  else
    let prompt := buildPrompt req (formattedSections req.sections)
    let res := generateWithRetry (gen prompt) defaultMaxRetries
    match res.2 with
    | .ok t => ⟨res.1, 200, .draftB t⟩
    | .err me =>
      let m := me.getD "undefined"
      ⟨res.1, 500,
        .errD "AI Service Busy"
          (if containsSub "overloaded" m then overloadedFriendly else m)⟩

/-! ## Supporting lemmas -/

theorem generateWithRetryAux_stop (gen : Nat → GenResult) (n i : Nat)
    (last : Option String) (h : n ≤ i) :
    generateWithRetryAux gen n i last = ([], .err last) := by
  unfold generateWithRetryAux
  rw [if_neg (by omega)]

theorem retry_aux_allfail (m : Nat → String) (n : Nat)
    (hr : ∀ i, isRetryable (m i) = true) :
    ∀ (k i : Nat) (last : Option String), i + k = n → 0 < k →
      callIdxs
          (generateWithRetryAux (fun j => GenResult.failure (m j)) n i
            last).1 =
        List.range' i k ∧
      (generateWithRetryAux (fun j => GenResult.failure (m j)) n i last).2 =
        RetryOutcome.err (some (m (n - 1))) := by
  intro k
  induction k with
  | zero => intro i last _ h0; exact absurd h0 (by omega)
  | succ k ih =>
    intro i last hik _
    have hi : i < n := by omega
    unfold generateWithRetryAux
    rw [if_pos hi]
    simp only [hr i, if_true]
    rcases Nat.eq_zero_or_pos k with hk | hk
    · subst hk
      rw [generateWithRetryAux_stop _ _ _ _ (by omega)]
      refine ⟨?_, ?_⟩
      · rcases Nat.eq_zero_or_pos i with hi0 | hi0
        · subst hi0; simp [callIdxs, List.range']
        · rw [if_pos hi0]; simp [callIdxs, List.range']
      · have hieq : i = n - 1 := by omega
        simp [hieq]
    · obtain ⟨h1, h2⟩ := ih (i + 1) (some (m i)) (by omega) hk
      refine ⟨?_, ?_⟩
      · rcases Nat.eq_zero_or_pos i with hi0 | hi0
        · subst hi0
          simp only [gt_iff_lt, Nat.lt_irrefl, if_false, List.nil_append]
          rw [List.range'_succ]
          simp [callIdxs, h1]
        · rw [if_pos hi0]
          rw [List.range'_succ]
          simp [callIdxs, h1]
      · exact h2

/-! ## Claims about the retry wrapper -/

/-- C1: when the external capability fails on every call with a transient
(retryable) error, `generateWithRetry` makes exactly `maxRetries` attempts
(the call indices of the trace are `0, ..., maxRetries - 1`; the
`maxRetries` parameter defaults to `3`) and the final outcome is the error
of the most recent failure, the one of the last attempt. -/
theorem retry_exhausts_transient_c1 (m : Nat → String) (n : Nat)
    (hn : 1 ≤ n) (hr : ∀ i, isRetryable (m i) = true) :
    callIdxs (generateWithRetry (fun j => GenResult.failure (m j)) n).1 =
      List.range n ∧
    (generateWithRetry (fun j => GenResult.failure (m j)) n).2 =
      RetryOutcome.err (some (m (n - 1))) ∧
    defaultMaxRetries = 3 := by
  obtain ⟨h1, h2⟩ := retry_aux_allfail m n hr n 0 none (by omega) (by omega)
  exact ⟨by rw [List.range_eq_range']; exact h1, h2, rfl⟩

/-- C1 witness: a capability that always fails with "503 Service
Unavailable" is attempted exactly three times under the default bound and
that failure is the final error. -/
theorem retry_exhausts_transient_c1_witness :
    callIdxs
        (generateWithRetry
          (fun _ => GenResult.failure "503 Service Unavailable") 3).1 =
      List.range 3 ∧
    (generateWithRetry
        (fun _ => GenResult.failure "503 Service Unavailable") 3).2 =
      RetryOutcome.err (some "503 Service Unavailable") ∧
    defaultMaxRetries = 3 :=
  retry_exhausts_transient_c1 (fun _ => "503 Service Unavailable") 3
    (by omega)
    (fun _ => (by decide : isRetryable "503 Service Unavailable" = true))

end EduNote

namespace EduNote

/-- C2: a failure is retried only when its message, lower-cased, contains
"503", "500", "overloaded" or "unavailable" as a substring (the
classification used by the loop); when the very first failure is not of
this shape, the loop makes exactly one attempt and throws that same
error. -/
theorem retry_permanent_single_attempt_c2 (gen : Nat → GenResult)
    (n : Nat) (msg : String) (hn : 1 ≤ n)
    (h0 : gen 0 = GenResult.failure msg)
    (hperm : (containsSub "503" (jsToLower msg) ||
        containsSub "500" (jsToLower msg) ||
        containsSub "overloaded" (jsToLower msg) ||
        containsSub "unavailable" (jsToLower msg)) = false) :
    generateWithRetry gen n = ([Ev.call 0], RetryOutcome.err (some msg)) ∧
    ∀ m, isRetryable m =
      (containsSub "503" (jsToLower m) || containsSub "500" (jsToLower m) ||
       containsSub "overloaded" (jsToLower m) ||
       containsSub "unavailable" (jsToLower m)) := by
  refine ⟨?_, fun m => rfl⟩
  unfold generateWithRetry generateWithRetryAux
  rw [if_pos (by omega : 0 < n), h0]
  have hr : isRetryable msg = false := hperm
  simp [hr]

/-- C2 witness: a capability failing once with "API key not valid" is
attempted exactly once and the error is propagated unchanged. -/
theorem retry_permanent_single_attempt_c2_witness :
    generateWithRetry (fun _ => GenResult.failure "API key not valid") 3 =
      ([Ev.call 0], RetryOutcome.err (some "API key not valid")) ∧
    ∀ m, isRetryable m =
      (containsSub "503" (jsToLower m) || containsSub "500" (jsToLower m) ||
       containsSub "overloaded" (jsToLower m) ||
       containsSub "unavailable" (jsToLower m)) :=
  retry_permanent_single_attempt_c2
    (fun _ => GenResult.failure "API key not valid") 3 "API key not valid"
    (by omega) rfl (by decide)

end EduNote

namespace EduNote

/-- The shape of any trace of the retry loop that starts at attempt `lo`
and makes `c` calls: before every call with a positive index a single wait
of `2 ^ index * 1000` milliseconds (that is, `2 ^ index` seconds) is
inserted, and no wait precedes the call with index `0`. -/
def segs : Nat → Nat → List Ev
  | _, 0 => []
  | lo, c + 1 =>
    (if lo > 0 then [Ev.wait (2 ^ lo * 1000)] else []) ++
      Ev.call lo :: segs (lo + 1) c

theorem retry_aux_shape (gen : Nat → GenResult) (n : Nat) :
    ∀ (k i : Nat) (last : Option String), n - i ≤ k →
      ∃ c, (generateWithRetryAux gen n i last).1 = segs i c := by
  intro k
  induction k with
  | zero =>
    intro i last hk
    rw [generateWithRetryAux_stop gen n i last (by omega)]
    exact ⟨0, rfl⟩
  | succ k ih =>
    intro i last hk
    by_cases hi : i < n
    · unfold generateWithRetryAux
      rw [if_pos hi]
      cases hgen : gen i with
      | success t => exact ⟨1, by simp [segs]⟩
      | failure msg =>
        by_cases hr : isRetryable msg
        · obtain ⟨c, hc⟩ := ih (i + 1) (some msg) (by omega)
          exact ⟨c + 1, by simp [segs, hr, hc]⟩
        · exact ⟨1, by simp [segs, hr]⟩
    · rw [generateWithRetryAux_stop gen n i last (by omega)]
      exact ⟨0, rfl⟩

theorem waitsOf_segs_pos (c : Nat) :
    ∀ lo, 1 ≤ lo →
      waitsOf (segs lo c) =
        (List.range' lo c).map (fun k => 2 ^ k * 1000) := by
  induction c with
  | zero => intro lo _; simp [segs, waitsOf]
  | succ c ih =>
    intro lo hlo
    rw [List.range'_succ]
    simp only [segs, if_pos (by omega : lo > 0)]
    simp [waitsOf, ih (lo + 1) (by omega)]

theorem waitsOf_segs_zero (c : Nat) :
    waitsOf (segs 0 c) =
      (List.range' 1 (c - 1)).map (fun k => 2 ^ k * 1000) := by
  cases c with
  | zero => simp [segs, waitsOf]
  | succ c =>
    simp only [segs, Nat.lt_irrefl, gt_iff_lt, if_false, List.nil_append]
    simp [waitsOf, waitsOf_segs_pos c 1 (by omega)]

theorem chain_lt_pow_waits (c : Nat) :
    ∀ lo, List.Chain' (· < ·)
      ((List.range' lo c).map (fun k => 2 ^ k * 1000)) := by
  induction c with
  | zero => intro lo; simp
  | succ c ih =>
    intro lo
    rw [List.range'_succ]
    cases c with
    | zero => simp
    | succ c =>
      rw [List.range'_succ]
      simp only [List.map_cons]
      refine List.Chain'.cons ?_ ?_
      · show (2 : Nat) ^ lo * 1000 < 2 ^ (lo + 1) * 1000
        have h2 : (2 : Nat) ^ lo < 2 ^ (lo + 1) :=
          Nat.pow_lt_pow_succ (by omega)
        omega
      · have := ih (lo + 1)
        rwa [List.range'_succ, List.map_cons] at this

/-- C3: for every capability and retry bound, the event trace of
`generateWithRetry` has the shape `segs 0 c` for some number of calls `c`:
no wait precedes the first attempt, and the single wait inserted before
the attempt with index `k ≥ 1` is `2 ^ k * 1000` milliseconds, that is
`2 ^ k` seconds (2s before attempt 1, 4s before attempt 2, ...).  The
waits of the trace are therefore `2 ^ k * 1000` for `k = 1, ..., c - 1`,
a strictly increasing sequence. -/
theorem retry_backoff_schedule_c3 (gen : Nat → GenResult) (n : Nat) :
    ∃ c, (generateWithRetry gen n).1 = segs 0 c ∧
      waitsOf (generateWithRetry gen n).1 =
        (List.range' 1 (c - 1)).map (fun k => 2 ^ k * 1000) ∧
      List.Chain' (· < ·) (waitsOf (generateWithRetry gen n).1) := by
  obtain ⟨c, hc⟩ := retry_aux_shape gen n n 0 none (by omega)
  refine ⟨c, hc, ?_, ?_⟩
  · rw [show (generateWithRetry gen n).1 = segs 0 c from hc]
    exact waitsOf_segs_zero c
  · rw [show (generateWithRetry gen n).1 = segs 0 c from hc,
      waitsOf_segs_zero c]
    exact chain_lt_pow_waits (c - 1) 1

end EduNote

namespace EduNote

/-! ## Claims about the request handler -/

/-- C5: when any of `curriculum`, `classLevel`, `subject`, `topic` or
`sections` is absent or otherwise falsy, the handler answers HTTP 400
with the missing-fields error body and the event trace is empty: the
external generation capability is never invoked. -/
theorem handler_missing_field_400_c5 (gen : String → Nat → GenResult)
    (req : LessonRequest)
    (h : truthy req.curriculum = false ∨ truthy req.classLevel = false ∨
      truthy req.subject = false ∨ truthy req.topic = false ∨
      truthy req.sections = false) :
    handler gen req = ⟨[], 400, RespBody.errB "Missing required fields"⟩ := by
  have hm : missingRequired req = true := by
    unfold missingRequired
    rcases h with h | h | h | h | h <;> simp [h]
  unfold handler
  rw [if_pos hm]

/-- C5 witness: a request with every field but `topic` present is refused
with 400 and an empty event trace. -/
theorem handler_missing_field_400_c5_witness :
    handler (fun _ _ => GenResult.success "draft")
        ⟨JsVal.strV "NERDC", JsVal.strV "JSS1", JsVal.strV "Math",
          JsVal.undef, JsVal.undef, JsVal.undef,
          JsVal.arrV ["objectives"]⟩ =
      ⟨[], 400, RespBody.errB "Missing required fields"⟩ :=
  handler_missing_field_400_c5 (fun _ _ => GenResult.success "draft")
    ⟨JsVal.strV "NERDC", JsVal.strV "JSS1", JsVal.strV "Math",
      JsVal.undef, JsVal.undef, JsVal.undef, JsVal.arrV ["objectives"]⟩
    (by decide)

/-- C6 counterexample: a request whose `curriculum` is the whitespace-only
string " " — non-empty before trimming, empty after trimming — is not
rejected: validation passes and the handler answers 200 with the draft. -/
theorem whitespace_field_accepted_c6_counterexample :
    handler (fun _ _ => GenResult.success "draft")
        ⟨JsVal.strV " ", JsVal.strV "JSS1", JsVal.strV "Math",
          JsVal.undef, JsVal.strV "Sets", JsVal.undef,
          JsVal.arrV ["objectives"]⟩ =
      ⟨[Ev.call 0], 200, RespBody.draftB "draft"⟩ ∧
    jsTrim " " = "" := by
  constructor
  · unfold handler generateWithRetry generateWithRetryAux
    rw [if_neg (by decide)]
    rfl
  · decide

/-- C6 amended: validation tests only JavaScript truthiness and never
trims; whenever all five required fields are truthy — and a
whitespace-only string such as " " is truthy although it trims to the
empty string — the handler does not answer 400. -/
theorem handler_validation_truthiness_only_c6
    (gen : String → Nat → GenResult) (req : LessonRequest)
    (h1 : truthy req.curriculum = true) (h2 : truthy req.classLevel = true)
    (h3 : truthy req.subject = true) (h4 : truthy req.topic = true)
    (h5 : truthy req.sections = true) :
    (handler gen req).status ≠ 400 ∧ truthy (JsVal.strV " ") = true ∧
    jsTrim " " = "" := by
  refine ⟨?_, by decide, by decide⟩
  have hm : missingRequired req = false := by
    unfold missingRequired
    simp [h1, h2, h3, h4, h5]
  unfold handler
  rw [if_neg (by simp [hm])]
  dsimp only
  split <;> simp

/-- C6 amended witness: the whitespace-only request of the counterexample
satisfies the truthiness hypotheses and is indeed not answered with 400. -/
theorem handler_validation_truthiness_only_c6_witness :
    (handler (fun _ _ => GenResult.success "draft")
        ⟨JsVal.strV " ", JsVal.strV "JSS1", JsVal.strV "Math",
          JsVal.undef, JsVal.strV "Sets", JsVal.undef,
          JsVal.arrV ["objectives"]⟩).status ≠ 400 ∧
    truthy (JsVal.strV " ") = true ∧ jsTrim " " = "" :=
  handler_validation_truthiness_only_c6
    (fun _ _ => GenResult.success "draft")
    ⟨JsVal.strV " ", JsVal.strV "JSS1", JsVal.strV "Math",
      JsVal.undef, JsVal.strV "Sets", JsVal.undef,
      JsVal.arrV ["objectives"]⟩
    (by decide) (by decide) (by decide) (by decide) (by decide)

/-- C7: the rendered section list maps the entry at zero-based position
`i` to `(i + 1) ++ ". " ++ upperCased entry` — numbering from 1 in input
order, one entry per rendered element, upper-case normalization — the
whole list is joined with newlines, and in particular
`["objectives", "content"]` renders as "1. OBJECTIVES\n2. CONTENT". -/
theorem sections_numbered_upper_c7 (xs : List String) (i : Nat)
    (h : i < xs.length) :
    formattedSections (JsVal.arrV xs) =
      String.intercalate "\n" (xs.enum.map renderSection) ∧
    (xs.enum.map renderSection).get
        ⟨i, by rw [List.length_map, List.enum_length]; exact h⟩ =
      toString (i + 1) ++ ". " ++ jsToUpper (xs.get ⟨i, h⟩) ∧
    formattedSections (JsVal.arrV ["objectives", "content"]) =
      "1. OBJECTIVES\n2. CONTENT" := by
  refine ⟨rfl, ?_, by decide⟩
  simp [List.get_eq_getElem, List.getElem_map, List.getElem_enum,
    renderSection]

/-- C7 witness: the characterization applied to the concrete section list
`["objectives", "content"]` at position 0. -/
theorem sections_numbered_upper_c7_witness :
    formattedSections (JsVal.arrV ["objectives", "content"]) =
      String.intercalate "\n"
        ((["objectives", "content"] : List String).enum.map
          renderSection) ∧
    ((["objectives", "content"] : List String).enum.map renderSection).get
        ⟨0, by rw [List.length_map, List.enum_length]; decide⟩ =
      toString (0 + 1) ++ ". " ++
        jsToUpper ((["objectives", "content"] : List String).get
          ⟨0, by decide⟩) ∧
    formattedSections (JsVal.arrV ["objectives", "content"]) =
      "1. OBJECTIVES\n2. CONTENT" :=
  sections_numbered_upper_c7 ["objectives", "content"] 0 (by decide)

end EduNote

namespace EduNote

/-- C8 counterexample: a provided `sections` that is not a non-empty
array of strings is not rejected.  With the empty array the handler still
answers 200 (rendering an empty section list); with the non-array string
"all" it also answers 200, silently substituting the default list.  No
ValidationError is produced in either case. -/
theorem sections_shape_not_rejected_c8_counterexample :
    handler (fun _ _ => GenResult.success "ok")
        ⟨JsVal.strV "NERDC", JsVal.strV "JSS1", JsVal.strV "Math",
          JsVal.undef, JsVal.strV "Sets", JsVal.undef, JsVal.arrV []⟩ =
      ⟨[Ev.call 0], 200, RespBody.draftB "ok"⟩ ∧
    formattedSections (JsVal.arrV []) = "" ∧
    handler (fun _ _ => GenResult.success "ok")
        ⟨JsVal.strV "NERDC", JsVal.strV "JSS1", JsVal.strV "Math",
          JsVal.undef, JsVal.strV "Sets", JsVal.undef,
          JsVal.strV "all"⟩ =
      ⟨[Ev.call 0], 200, RespBody.draftB "ok"⟩ ∧
    formattedSections (JsVal.strV "all") = defaultSectionsStr := by
  refine ⟨?_, by decide, ?_, by decide⟩ <;>
    (unfold handler generateWithRetry generateWithRetryAux
     rw [if_neg (by decide)]
     rfl)

/-- C8 amended: the builder never validates the shape of a provided
`sections` value.  A truthy non-array value is silently replaced by the
fixed default three-item list, the empty array renders as the empty
section list, and a request whose `sections` is the empty array (with all
other required fields truthy) is not answered with 400. -/
theorem sections_shape_fallback_c8 (v : JsVal)
    (gen : String → Nat → GenResult) (req : LessonRequest)
    (hv : truthy v = true) (hna : ∀ xs, v ≠ JsVal.arrV xs)
    (h1 : truthy req.curriculum = true) (h2 : truthy req.classLevel = true)
    (h3 : truthy req.subject = true) (h4 : truthy req.topic = true)
    (h5 : req.sections = JsVal.arrV []) :
    formattedSections v = defaultSectionsStr ∧
    formattedSections (JsVal.arrV []) = "" ∧
    (handler gen req).status ≠ 400 := by
  refine ⟨?_, by decide, ?_⟩
  · cases v with
    | arrV xs => exact absurd rfl (hna xs)
    | undef => rfl
    | nullV => rfl
    | boolV b => rfl
    | numV n => rfl
    | strV s => rfl
  · have hsec : truthy req.sections = true := by rw [h5]; rfl
    have hm : missingRequired req = false := by
      unfold missingRequired
      simp [h1, h2, h3, h4, hsec]
    unfold handler
    rw [if_neg (by simp [hm])]
    dsimp only
    split <;> simp

/-- C8 amended witness: the fallback characterization applied to the
non-array value "all" and the concrete empty-array request of the
counterexample. -/
theorem sections_shape_fallback_c8_witness :
    formattedSections (JsVal.strV "all") = defaultSectionsStr ∧
    formattedSections (JsVal.arrV []) = "" ∧
    (handler (fun _ _ => GenResult.success "ok")
        ⟨JsVal.strV "NERDC", JsVal.strV "JSS1", JsVal.strV "Math",
          JsVal.undef, JsVal.strV "Sets", JsVal.undef,
          JsVal.arrV []⟩).status ≠ 400 :=
  sections_shape_fallback_c8 (JsVal.strV "all")
    (fun _ _ => GenResult.success "ok")
    ⟨JsVal.strV "NERDC", JsVal.strV "JSS1", JsVal.strV "Math",
      JsVal.undef, JsVal.strV "Sets", JsVal.undef, JsVal.arrV []⟩
    (by decide) (fun xs => by simp) (by decide) (by decide) (by decide)
    (by decide) rfl

end EduNote

namespace EduNote

set_option maxRecDepth 40000 in
/-- C9 counterexample: for a concrete valid request whose `week` and
`subTopic` are absent, the built prompt nowhere contains the text
"Not specified"; the interpolated placeholder is not the one the claim
states. -/
theorem prompt_not_specified_c9_counterexample :
    containsSub "Not specified"
      (buildPrompt
        ⟨JsVal.strV "NERDC", JsVal.strV "JSS1", JsVal.strV "Math",
          JsVal.undef, JsVal.strV "Sets", JsVal.undef,
          JsVal.arrV ["objectives", "content"]⟩
        (formattedSections (JsVal.arrV ["objectives", "content"]))) =
      false ∧
    truthy JsVal.undef = false := by
  exact ⟨by decide, by decide⟩

/-- C9 amended: for every request whose `week` (respectively `subTopic`)
is absent or otherwise falsy, the built prompt interpolates the
placeholder "N/A" in place of the missing optional field: the prompt
splits around "\n- Week: N/A" (respectively "\n- Sub-topic(s): N/A"). -/
theorem prompt_optional_na_c9 (req : LessonRequest) (fs : String)
    (hw : truthy req.week = false) (hs : truthy req.subTopic = false) :
    (∃ l r, buildPrompt req fs = l ++ "\n- Week: N/A" ++ r) ∧
    (∃ l r, buildPrompt req fs = l ++ "\n- Sub-topic(s): N/A" ++ r) := by
  have hwNA : orNA req.week = "N/A" := by simp [orNA, hw]
  have hsNA : orNA req.subTopic = "N/A" := by simp [orNA, hs]
  constructor
  · refine ⟨promptP1 ++ jsToString req.curriculum ++ promptP2 ++
      jsToString req.classLevel ++ promptP3 ++ jsToString req.subject,
      promptP5 ++ jsToString req.topic ++ promptP6 ++ orNA req.subTopic ++
        promptP7 ++ fs ++ promptP8, ?_⟩
    unfold buildPrompt
    rw [hwNA]
    have hlit : ("\n- Week: N/A" : String) = promptP4 ++ "N/A" := by decide
    rw [hlit]
    simp only [String.append_assoc]
  · refine ⟨promptP1 ++ jsToString req.curriculum ++ promptP2 ++
      jsToString req.classLevel ++ promptP3 ++ jsToString req.subject ++
      promptP4 ++ orNA req.week ++ promptP5 ++ jsToString req.topic,
      promptP7 ++ fs ++ promptP8, ?_⟩
    unfold buildPrompt
    rw [hsNA]
    have hlit : ("\n- Sub-topic(s): N/A" : String) = promptP6 ++ "N/A" := by
      decide
    rw [hlit]
    simp only [String.append_assoc]

end EduNote

namespace EduNote

/-- C9 amended witness: the concrete valid request with absent `week` and
`subTopic` splits its prompt around both "N/A" placeholders. -/
theorem prompt_optional_na_c9_witness :
    (∃ l r, buildPrompt
        ⟨JsVal.strV "NERDC", JsVal.strV "JSS1", JsVal.strV "Math",
          JsVal.undef, JsVal.strV "Sets", JsVal.undef,
          JsVal.arrV ["objectives", "content"]⟩ "1. OBJECTIVES" =
      l ++ "\n- Week: N/A" ++ r) ∧
    (∃ l r, buildPrompt
        ⟨JsVal.strV "NERDC", JsVal.strV "JSS1", JsVal.strV "Math",
          JsVal.undef, JsVal.strV "Sets", JsVal.undef,
          JsVal.arrV ["objectives", "content"]⟩ "1. OBJECTIVES" =
      l ++ "\n- Sub-topic(s): N/A" ++ r) :=
  prompt_optional_na_c9
    ⟨JsVal.strV "NERDC", JsVal.strV "JSS1", JsVal.strV "Math",
      JsVal.undef, JsVal.strV "Sets", JsVal.undef,
      JsVal.arrV ["objectives", "content"]⟩ "1. OBJECTIVES"
    (by decide) (by decide)

/-- C4 counterexample: the handler has no timeout path.  For a concrete
valid request whose external call fails with a timeout-style message, the
failure is surfaced as HTTP 500 with the raw message — not as a distinct
TimeoutError with HTTP 504. -/
theorem timeout_not_504_c4_counterexample :
    handler (fun _ _ => GenResult.failure "Request timed out after 60000 ms")
        ⟨JsVal.strV "NERDC", JsVal.strV "JSS1", JsVal.strV "Math",
          JsVal.undef, JsVal.strV "Sets", JsVal.undef,
          JsVal.arrV ["objectives"]⟩ =
      ⟨[Ev.call 0], 500,
        RespBody.errD "AI Service Busy"
          "Request timed out after 60000 ms"⟩ ∧
    (handler (fun _ _ =>
          GenResult.failure "Request timed out after 60000 ms")
        ⟨JsVal.strV "NERDC", JsVal.strV "JSS1", JsVal.strV "Math",
          JsVal.undef, JsVal.strV "Sets", JsVal.undef,
          JsVal.arrV ["objectives"]⟩).status ≠ 504 := by
  have h : handler (fun _ _ =>
        GenResult.failure "Request timed out after 60000 ms")
      ⟨JsVal.strV "NERDC", JsVal.strV "JSS1", JsVal.strV "Math",
        JsVal.undef, JsVal.strV "Sets", JsVal.undef,
        JsVal.arrV ["objectives"]⟩ =
      ⟨[Ev.call 0], 500,
        RespBody.errD "AI Service Busy"
          "Request timed out after 60000 ms"⟩ := by
    unfold handler generateWithRetry generateWithRetryAux
    rw [if_neg (by decide)]
    rfl
  exact ⟨h, by rw [h]; decide⟩

/-- C4 amended: the code implements no timeout: no deadline bounds the
external call, no TimeoutError type exists, and the handler only ever
answers with HTTP status 200, 400 or 500 — never 504. -/
theorem handler_no_504_c4 (gen : String → Nat → GenResult)
    (req : LessonRequest) :
    (handler gen req).status = 200 ∨ (handler gen req).status = 400 ∨
      (handler gen req).status = 500 := by
  unfold handler
  by_cases hm : missingRequired req
  · rw [if_pos hm]
    right; left; rfl
  · rw [if_neg hm]
    dsimp only
    split
    · left; rfl
    · right; right; rfl

end EduNote

namespace EduNote

theorem dropWhile_head?_not (p : Char → Bool) (l : List Char) (a : Char)
    (h : (l.dropWhile p).head? = some a) : p a = false := by
  induction l with
  | nil => simp [List.dropWhile] at h
  | cons b t ih =>
    rw [List.dropWhile] at h
    by_cases hb : p b
    · simp [hb] at h
      exact ih h
    · simp [hb] at h
      subst h
      simpa using hb

/-- `jsTrim` strips exactly the leading and trailing whitespace: the
result neither starts nor ends with a whitespace character, and the
original string is a whitespace prefix, then the result, then a
whitespace suffix. -/
theorem jsTrim_strips (s : String) :
    (∀ a, (jsTrim s).toList.head? = some a → isJsWs a = false) ∧
    (∀ a, (jsTrim s).toList.getLast? = some a → isJsWs a = false) ∧
    ∃ pre post, pre.all isJsWs = true ∧ post.all isJsWs = true ∧
      s.toList = pre ++ (jsTrim s).toList ++ post := by
  have hlist : (jsTrim s).toList =
      ((s.toList.dropWhile isJsWs).reverse.dropWhile isJsWs).reverse := rfl
  refine ⟨?_, ?_, ?_⟩
  · intro a ha
    rw [hlist, List.head?_reverse] at ha
    have hm : (s.toList.dropWhile isJsWs).reverse.dropWhile isJsWs ≠ [] := by
      intro h0
      rw [h0] at ha
      simp at ha
    have h2 : ((s.toList.dropWhile isJsWs).reverse).getLast? = some a := by
      conv_lhs =>
        rw [← List.takeWhile_append_dropWhile isJsWs
          (s.toList.dropWhile isJsWs).reverse]
      rw [List.getLast?_append_of_ne_nil _ hm]
      exact ha
    rw [List.getLast?_reverse] at h2
    exact dropWhile_head?_not isJsWs _ a h2
  · intro a ha
    rw [hlist, List.getLast?_reverse] at ha
    exact dropWhile_head?_not isJsWs _ a ha
  · refine ⟨s.toList.takeWhile isJsWs,
      ((s.toList.dropWhile isJsWs).reverse.takeWhile isJsWs).reverse,
      ?_, ?_, ?_⟩
    · rw [List.all_eq_true]
      intro x hx
      exact List.mem_takeWhile_imp hx
    · rw [List.all_eq_true]
      intro x hx
      rw [List.mem_reverse] at hx
      exact List.mem_takeWhile_imp hx
    · rw [hlist, List.append_assoc]
      conv_lhs =>
        rw [← List.takeWhile_append_dropWhile isJsWs s.toList,
          ← List.reverse_reverse (s.toList.dropWhile isJsWs),
          ← List.takeWhile_append_dropWhile isJsWs
            (s.toList.dropWhile isJsWs).reverse]
      rw [List.reverse_append]

theorem generateWithRetry_first_success (gen : Nat → GenResult) (n : Nat)
    (t : String) (hn : 1 ≤ n) (h0 : gen 0 = GenResult.success t) :
    generateWithRetry gen n = ([Ev.call 0], RetryOutcome.ok (jsTrim t)) := by
  unfold generateWithRetry generateWithRetryAux
  rw [if_pos (by omega : 0 < n), h0]
  rfl

/-- C10: for every accepted request whose external call succeeds on the
first attempt with `text`, the handler answers 200 and the draft sent to
the caller is `jsTrim text`: the generated text stripped of its leading
and trailing whitespace (the result neither starts nor ends with
whitespace, and the original text is whitespace, then the draft, then
whitespace). -/
theorem success_draft_trimmed_c10 (gen : String → Nat → GenResult)
    (req : LessonRequest) (text : String)
    (hreq : missingRequired req = false)
    (hgen : gen (buildPrompt req (formattedSections req.sections)) 0 =
      GenResult.success text) :
    handler gen req =
      ⟨[Ev.call 0], 200, RespBody.draftB (jsTrim text)⟩ ∧
    (∀ a, (jsTrim text).toList.head? = some a → isJsWs a = false) ∧
    (∀ a, (jsTrim text).toList.getLast? = some a → isJsWs a = false) ∧
    ∃ pre post, pre.all isJsWs = true ∧ post.all isJsWs = true ∧
      text.toList = pre ++ (jsTrim text).toList ++ post := by
  obtain ⟨hh, hl, hd⟩ := jsTrim_strips text
  refine ⟨?_, hh, hl, hd⟩
  unfold handler
  rw [if_neg (by simp [hreq])]
  dsimp only
  rw [generateWithRetry_first_success _ defaultMaxRetries text
    (by decide) hgen]

/-- C10 witness: a concrete valid request whose capability returns
"  Lesson text \n" yields the 200 response carrying the trimmed draft. -/
theorem success_draft_trimmed_c10_witness :
    handler (fun _ _ => GenResult.success "  Lesson text \n")
        ⟨JsVal.strV "NERDC", JsVal.strV "JSS1", JsVal.strV "Math",
          JsVal.undef, JsVal.strV "Sets", JsVal.undef,
          JsVal.arrV ["objectives", "evaluation"]⟩ =
      ⟨[Ev.call 0], 200,
        RespBody.draftB (jsTrim "  Lesson text \n")⟩ ∧
    (∀ a, (jsTrim "  Lesson text \n").toList.head? = some a →
      isJsWs a = false) ∧
    (∀ a, (jsTrim "  Lesson text \n").toList.getLast? = some a →
      isJsWs a = false) ∧
    ∃ pre post, pre.all isJsWs = true ∧ post.all isJsWs = true ∧
      ("  Lesson text \n" : String).toList =
        pre ++ (jsTrim "  Lesson text \n").toList ++ post :=
  success_draft_trimmed_c10
    (fun _ _ => GenResult.success "  Lesson text \n")
    ⟨JsVal.strV "NERDC", JsVal.strV "JSS1", JsVal.strV "Math",
      JsVal.undef, JsVal.strV "Sets", JsVal.undef,
      JsVal.arrV ["objectives", "evaluation"]⟩
    "  Lesson text \n" (by decide) rfl

end EduNote
